import Mathlib

set_option maxHeartbeats 1000000

namespace FundingRate

/-!
Shallow embedding of the funding-rate arbitrage engine.

Numbers: the Python source computes with floats; we model them as rationals
(`ℚ`) so that all control flow stays decidable, except for the composite
score, whose base-10 logarithm forces real numbers (`ℝ`).

Database rows and reads are modelled as Lean lists and pure queries; writes
and operator callbacks are modelled as explicit event traces.
-/

/-! ## utils/calculator.py -/

/-- Slippage estimate from top-5 order-book depth
(`utils/calculator.py`, `estimate_slippage`). -/
def estimate_slippage (depth trade_amount : ℚ) : ℚ :=
  if trade_amount < depth * 0.1 then 0
  else if trade_amount < depth * 0.5 then trade_amount * 0.0001
  else trade_amount * 0.0005

/-- Profit component of the composite score: a log10 curve when the net
return is positive, zero otherwise (`utils/calculator.py`, `calculate_score`,
the `profit_score` local). -/
noncomputable def profit_score (net_profit_pct : ℝ) : ℝ :=
  if 0 < net_profit_pct then min 50 (10 + 15 * Real.logb 10 (net_profit_pct * 10000))
  else 0

/-- Risk component of the composite score (`risk_score` local). -/
def risk_score (risk_factor : ℚ) : ℚ := max 0 (30 - risk_factor * 1000)

/-- Bonus component of the composite score (`bonus_score` local). -/
def bonus_score (bonus_factor : ℚ) : ℚ := min (bonus_factor / 10) 20

/-- Composite 0-100 opportunity score
(`utils/calculator.py`, `calculate_score`). -/
noncomputable def calculate_score (net_profit_pct risk_factor bonus_factor : ℝ) : ℝ :=
  max 0 (profit_score net_profit_pct
    + max 0 (30 - risk_factor * 1000)
    + min (bonus_factor / 10) 20)

/-- Result record of `calculate_spot_futures_funding_profit`. -/
structure SpotFuturesProfit where
  funding_income : ℚ
  total_cost : ℚ
  net_profit : ℚ
  net_profit_pct : ℚ
  open_fees : ℚ
  close_fees : ℚ
deriving DecidableEq

/-- Spot-vs-perp funding profit per settlement period
(`utils/calculator.py`, `calculate_spot_futures_funding_profit`).
The caller guarantees `position_size ≠ 0`; Python would raise a
`ZeroDivisionError` otherwise. -/
def calculate_spot_futures_funding_profit
    (position_size funding_rate spot_taker_fee futures_taker_fee
      spot_maker_fee futures_maker_fee : ℚ) : SpotFuturesProfit :=
  let funding_income := position_size * funding_rate
  let spot_open_fee := position_size * spot_taker_fee
  let futures_open_fee := position_size * futures_taker_fee
  let spot_close_fee := position_size * spot_maker_fee
  let futures_close_fee := position_size * futures_maker_fee
  let total_cost := spot_open_fee + futures_open_fee + spot_close_fee + futures_close_fee
  let net_profit := funding_income - total_cost
  { funding_income := funding_income
    total_cost := total_cost
    net_profit := net_profit
    net_profit_pct := net_profit / position_size
    open_fees := spot_open_fee + futures_open_fee
    close_fees := spot_close_fee + futures_close_fee }

/-! ## core/opportunity_monitor.py : market data and funding frequency -/

/-- One venue's cached market sample for a symbol, as consumed by the
opportunity monitor. Every field may be absent (`None` / missing key),
modelled by `Option`. `funding_interval` is in milliseconds,
`next_funding_time` is a millisecond timestamp. -/
structure MarketEntry where
  funding_rate : Option ℚ := none
  next_funding_time : Option ℤ := none
  funding_interval : Option ℚ := none
  spot_bid : Option ℚ := none
  spot_ask : Option ℚ := none
  spot_price : Option ℚ := none
  futures_bid : Option ℚ := none
  futures_ask : Option ℚ := none
  futures_price : Option ℚ := none
  maker_fee : Option ℚ := none
  taker_fee : Option ℚ := none
deriving DecidableEq

/-- Funding-frequency resolver for a cross-exchange (S1) candidate
(`core/opportunity_monitor.py`, `_get_funding_frequency`). Both branches of
the source return the default of 8 hours; the value of `next_funding_time`
is tested for truthiness but never used. -/
def getFundingFrequency (long_data short_data : MarketEntry) : ℤ :=
  match long_data.next_funding_time with
  | some t => if t ≠ 0 then 8 else 8
  | none => 8

/-- Funding-frequency resolver for one venue
(`core/opportunity_monitor.py`, `_get_funding_frequency_single`). Uses the
venue-reported `funding_interval` (milliseconds, Python truthiness: present
and non-zero) converted to whole hours by `int(...)` truncation when
positive; the historical `next_funding_time` fallback mentioned in the
source comments is not implemented, and the per-exchange table always
falls through to the default of 8 hours, whatever `exchange` is. -/
def getFundingFrequencySingle (data : MarketEntry) (exchange : String) : ℤ :=
  match data.funding_interval with
  | some interval_ms =>
      if interval_ms ≠ 0 then
        if 0 < interval_ms / 3600000 then ⌊interval_ms / 3600000⌋
        else 8
      else 8
  | none => 8

/-- Python truthiness of the running `funding_interval` value inside
`get_funding_rate`: `None` and 0 count as unset. -/
def intervalTruthy : Option ℤ → Bool
  | some v => v != 0
  | none => false

/-- Funding-interval derivation of `BaseExchange.get_funding_rate`
(`src/exchanges/base_exchange.py`, lines 78-150), which produces the
`funding_interval` (milliseconds) the collector caches into the scanner's
market entry. Inputs model the venue response: `ccxt_interval_hours` is
the parsed hour count of the CCXT-normalised `interval` string when
present and parseable (parse failures leave the value unset, as the
`except` does); `fundingInterval_field` is the raw top-level
`fundingInterval` in ms; `info_interval_hours` is the resolved truthy
value of the `fundingIntervalHour` / `fundingIntervalHours` /
`fundingRateInterval` chain (hours); `info_interval_seconds` is the
`info.funding_interval` field (seconds, Gate); `history_timestamps` are
the settlement timestamps of `fetch_funding_rate_history(limit=2)`,
newest first, with fetch failures modelled as a too-short list. The
historical difference is accepted only when it lies between 1h and 24h
(3600000 ms to 86400000 ms) inclusive; `int(...)` truncations on the
positive values are floors. -/
def deriveFundingInterval (ccxt_interval_hours : Option ℤ)
    (fundingInterval_field : Option ℤ) (info_interval_hours : Option ℚ)
    (info_interval_seconds : Option ℚ) (history_timestamps : List ℤ) : Option ℤ :=
  let v1 : Option ℤ :=
    match ccxt_interval_hours with
    | some hours => if 0 < hours then some (hours * 3600000) else none
    | none => none
  let v2 : Option ℤ := if intervalTruthy v1 then v1 else fundingInterval_field
  let v3a : Option ℤ :=
    if intervalTruthy v2 then v2
    else
      match info_interval_hours with
      | some h => if 0 < h then some ⌊h * 3600000⌋ else v2
      | none => v2
  let v3 : Option ℤ :=
    if intervalTruthy v3a then v3a
    else
      match info_interval_seconds with
      | some s => if 0 < s then some ⌊s * 1000⌋ else v3a
      | none => v3a
  if intervalTruthy v3 then v3
  else
    match history_timestamps with
    | t0 :: t1 :: _ =>
      if 3600000 ≤ |t0 - t1| ∧ |t0 - t1| ≤ 86400000 then some |t0 - t1| else v3
    | _ => v3

/-- End-to-end funding frequency used by the scanner: the collector caches
the `funding_interval` returned by `get_funding_rate` into the market
entry (`data_collector.py`,
`market_data[symbol][exchange].update(funding_data)`), which
`_get_funding_frequency_single` then converts to whole hours. -/
def scannerFundingFrequency (iv : Option ℤ) (data : MarketEntry)
    (exchange : String) : ℤ :=
  getFundingFrequencySingle { data with funding_interval := iv.map fun z => (z : ℚ) }
    exchange

/-! ## core/opportunity_monitor.py : strategy S2A scan -/

/-- Per-pair S2A configuration, as resolved by
`config.get_pair_config(symbol, exchange, s2a)` with the source defaults. -/
structure S2AConfig where
  s2a_min_funding_rate : ℚ := 0.0005
  s2a_max_basis_deviation : ℚ := 0.01
  s2a_position_size : ℚ := 10000
deriving DecidableEq

/-- An S2A (spot-vs-perp funding) opportunity record as emitted by
`_calculate_spot_futures_funding_opportunities`. The wall-clock
`detected_at` field and the nested `details` dict (a copy of the profit
record) are not modelled; `score` is real-valued because of the log10 in
`calculate_score`. -/
structure S2AOpportunity where
  id : String
  type : String
  risk_level : String
  score : ℝ
  symbol : String
  exchange : String
  funding_rate : ℚ
  annual_funding_rate : ℚ
  funding_frequency_hours : ℤ
  times_per_day : ℚ
  basis : ℚ
  position_size : ℚ
  expected_return : ℚ
  expected_return_pct : ℚ
  spot_price : ℚ
  futures_price : ℚ
  status : String

/-- One iteration of the S2A scan loop for a single `(exchange, data)` pair
(`core/opportunity_monitor.py`,
`_calculate_spot_futures_funding_opportunities`, loop body). `none` means
the candidate is skipped - either a gate failed or a `ZeroDivisionError`
(frequency 0, `spot_ask` 0 or `position_size` 0) was swallowed by the
`except` handler. -/
noncomputable def s2aOne (cfg : S2AConfig) (symbol exchange : String)
    (data : MarketEntry) : Option S2AOpportunity :=
  match data.funding_rate, data.spot_ask, data.futures_bid, data.spot_price,
      data.futures_price, data.taker_fee, data.maker_fee with
  | some rate, some sa, some fb, some _sp, some _fp, some tf, some mf =>
    let freq := getFundingFrequencySingle data exchange
    if freq = 0 then none
    else if cfg.s2a_position_size = 0 then none
    else if sa = 0 then none
    else
      let times_per_day : ℚ := 24 / (freq : ℚ)
      if rate < cfg.s2a_min_funding_rate then none
      else
        let basis := (fb - sa) / sa
        if cfg.s2a_max_basis_deviation < |basis| then none
        else
          let profit := calculate_spot_futures_funding_profit
            cfg.s2a_position_size rate tf tf mf mf
          let annual_funding_rate := rate * times_per_day * 365
          some
            { id := "s2a_" ++ symbol ++ "_" ++ exchange
              type := "funding_rate_spot_futures"
              risk_level := "low"
              score := calculate_score (rate : ℝ) (|basis| : ℝ) (annual_funding_rate : ℝ)
              symbol := symbol
              exchange := exchange
              funding_rate := rate
              annual_funding_rate := annual_funding_rate
              funding_frequency_hours := freq
              times_per_day := times_per_day
              basis := basis
              position_size := cfg.s2a_position_size
              expected_return := profit.net_profit
              expected_return_pct := profit.net_profit_pct
              spot_price := sa
              futures_price := fb
              status := "pending" }
  | _, _, _, _, _, _, _ => none

/-- The S2A scan over a symbol's per-exchange market data
(`_calculate_spot_futures_funding_opportunities`). -/
noncomputable def calcSpotFuturesFundingOpportunities (cfg : S2AConfig)
    (symbol : String) (exchanges_data : List (String × MarketEntry)) :
    List S2AOpportunity :=
  exchanges_data.filterMap fun ed => s2aOne cfg symbol ed.1 ed.2

/-! ## core/risk_manager.py -/

/-- A row of the `positions` table, restricted to the columns the risk
manager and the monitoring loops read. -/
structure PositionRow where
  id : ℕ
  strategy_type : String
  symbol : String
  position_size : ℚ
  current_pnl : ℚ
  status : String
deriving DecidableEq

/-- The `SELECT * FROM positions WHERE status = open` query used by the
risk manager and by `StrategyExecutor.get_open_positions`. -/
def openPositionsQ (db : List PositionRow) : List PositionRow :=
  db.filter fun p => p.status == "open"

/-- Loss thresholds read from the `risk.*` config keys, with the source
defaults. -/
structure RiskThresholds where
  warning_threshold : ℚ := 0.005
  critical_threshold : ℚ := 0.010
  emergency_threshold : ℚ := 0.015
deriving DecidableEq

/-- A persisted risk event (`risk_events` row / risk callback payload).
The formatted free-text description is not modelled. -/
structure RiskEvent where
  level : String
  event_type : String
  position_id : Option ℕ
deriving DecidableEq

/-- Unrealised P&L fraction of a position:
`current_pnl / position_size if position_size > 0 else 0`. -/
def pnlPct (p : PositionRow) : ℚ :=
  if 0 < p.position_size then p.current_pnl / p.position_size else 0

/-- One position's risk check (`core/risk_manager.py`,
`_check_position_risk`): returns the risk events triggered and the status
updates written (`id`, new status). -/
def checkPositionRisk (cfg : RiskThresholds) (p : PositionRow) :
    List RiskEvent × List (ℕ × String) :=
  if pnlPct p < -cfg.emergency_threshold then
    ([⟨"emergency", "position_loss", some p.id⟩], [(p.id, "emergency_close_pending")])
  else if pnlPct p < -cfg.critical_threshold then
    ([⟨"critical", "position_loss", some p.id⟩], [])
  else if pnlPct p < -cfg.warning_threshold then
    ([⟨"warning", "position_loss", some p.id⟩], [])
  else ([], [])

/-- One pass of the risk monitoring loop (`_check_all_positions`): check
every `open` position, collecting events and status writes. -/
def checkAllPositions (cfg : RiskThresholds) (db : List PositionRow) :
    List RiskEvent × List (ℕ × String) :=
  ((openPositionsQ db).map (checkPositionRisk cfg)).foldl
    (fun acc r => (acc.1 ++ r.1, acc.2 ++ r.2)) ([], [])

/-- Apply a batch of status updates to the positions table. -/
def applyStatusUpdates (db : List PositionRow) (upds : List (ℕ × String)) :
    List PositionRow :=
  upds.foldl
    (fun d u => d.map fun p => if p.id = u.1 then { p with status := u.2 } else p)
    db

/-- The close decisions of one tick of the executor's position-monitoring
loop (`core/strategy_executor.py`, `_position_monitoring_loop`): it iterates
`get_open_positions()` and closes exactly those returned positions whose
status is `emergency_close_pending`. (The fee refresh and the S3 rule
checks performed for the remaining positions do not close positions by
status and are modelled elsewhere.) -/
def executorMonitorCloses (db : List PositionRow) : List ℕ :=
  ((openPositionsQ db).filter fun p => p.status == "emergency_close_pending").map
    fun p => p.id

/-- Risk-manager configuration for `check_pre_trade_risk`, with the source
defaults (`risk.*` and `global.*` config keys plus the pair-level
`max_positions`). -/
structure RiskConfig where
  max_drawdown : ℚ := 0.1
  total_capital : ℚ := 100
  max_position_size_per_trade : ℚ := 1000
  max_capital_usage : ℚ := 0.8
  max_positions : ℕ := 10
  pair_max_positions : ℕ := 3
  price_deviation_threshold : ℚ := 0.02
  dynamic_position_enabled : Bool := true
  high_score_multiplier : ℚ := 1.5
  medium_score_multiplier : ℚ := 1.0
  low_score_multiplier : ℚ := 0.5
deriving DecidableEq

/-- The opportunity fields `check_pre_trade_risk` reads.
`price_diff_pct` defaults to 0 when absent (`opportunity.get`). -/
structure RiskOpp where
  symbol : String
  position_size : ℚ
  type : String
  price_diff_pct : ℚ := 0
  score : ℚ
deriving DecidableEq

/-- Result of the pre-trade risk check. The formatted free-text `reason`
is not modelled. -/
structure RiskCheckResult where
  passed : Bool
  adjusted_position_size : ℚ
deriving DecidableEq

/-- Sum of `current_pnl` over open positions
(`SELECT SUM(current_pnl) ... WHERE status = open`). -/
def totalOpenPnl (db : List PositionRow) : ℚ :=
  ((openPositionsQ db).map fun p => p.current_pnl).sum

/-- Sum of `position_size` over open positions (`used_capital`). -/
def usedCapital (db : List PositionRow) : ℚ :=
  ((openPositionsQ db).map fun p => p.position_size).sum

/-- Remaining deployable capital:
`total_capital * max_capital_usage - used_capital`. -/
def availableCapital (cfg : RiskConfig) (db : List PositionRow) : ℚ :=
  cfg.total_capital * cfg.max_capital_usage - usedCapital db

/-- Aggregate loss fraction:
`total_pnl / total_capital if total_capital > 0 else 0`. -/
def totalLossPct (cfg : RiskConfig) (db : List PositionRow) : ℚ :=
  if 0 < cfg.total_capital then totalOpenPnl db / cfg.total_capital else 0

/-- Pre-trade risk check (`core/risk_manager.py`, `check_pre_trade_risk`).
Gate order and early returns follow the source: (0) aggregate drawdown,
(0b) per-trade size cap - which returns `passed = true` with the clamped
size immediately, (1) capital usage, (2) global open-position count,
(3) per-symbol open-position count, (4) S1 price-deviation anomaly,
(5) dynamic score-based sizing. -/
def checkPreTradeRisk (cfg : RiskConfig) (db : List PositionRow)
    (opp : RiskOpp) : RiskCheckResult :=
  if totalLossPct cfg db < -cfg.max_drawdown then
    { passed := false, adjusted_position_size := opp.position_size }
  else if cfg.max_position_size_per_trade < opp.position_size then
    { passed := true, adjusted_position_size := cfg.max_position_size_per_trade }
  else if availableCapital cfg db < opp.position_size then
    if 0 < availableCapital cfg db then
      { passed := true, adjusted_position_size := availableCapital cfg db }
    else
      { passed := false, adjusted_position_size := 0 }
  else if cfg.max_positions ≤ (openPositionsQ db).length then
    { passed := false, adjusted_position_size := opp.position_size }
  else if cfg.pair_max_positions ≤
      ((openPositionsQ db).filter fun p => p.symbol == opp.symbol).length then
    { passed := false, adjusted_position_size := opp.position_size }
  else if opp.type == "funding_rate_cross_exchange" &&
      decide (cfg.price_deviation_threshold < opp.price_diff_pct) then
    { passed := false, adjusted_position_size := opp.position_size }
  else if cfg.dynamic_position_enabled then
    let mult :=
      if 85 < opp.score then cfg.high_score_multiplier
      else if 60 < opp.score then cfg.medium_score_multiplier
      else cfg.low_score_multiplier
    let adjusted_size := min (opp.position_size * mult) (availableCapital cfg db)
    if adjusted_size ≠ opp.position_size then
      { passed := true, adjusted_position_size := adjusted_size }
    else
      { passed := true, adjusted_position_size := opp.position_size }
  else
    { passed := true, adjusted_position_size := opp.position_size }

/-! ## core/order_manager.py : hedge pairs and rollback -/

/-- The arguments of one `OrderManager.create_order` call. -/
structure OrderRequest where
  exchange : String
  symbol : String
  side : String
  amount : ℚ
  order_type : String
  is_futures : Bool
  strategy_id : Option ℕ
  strategy_type : String
  check_depth : Bool
deriving DecidableEq

/-- The venue order data the pair functions consume: only the venue order
id is read back (for the fee lookup). -/
structure OrderData where
  id : String
deriving DecidableEq

/-- Result of a hedge-pair placement: the legs placed, the success flag
and the summed opening fee. -/
structure PairResult where
  spot_order : Option OrderData
  futures_order : Option OrderData
  success : Bool
  total_fee : ℚ
deriving DecidableEq

/-- The rollback request built by `OrderManager._rollback_order`: a market
order on the reverse side with `check_depth=False` and strategy type
`rollback`; its outcome is only logged. -/
def rollbackOrderRequest (exchange symbol side : String) (amount : ℚ)
    (is_futures : Bool) : OrderRequest :=
  let reverse_side := if side == "buy" then "sell" else "buy"
  { exchange := exchange, symbol := symbol, side := reverse_side
    amount := amount, order_type := "market", is_futures := is_futures
    strategy_id := none, strategy_type := "rollback", check_depth := false }

/-- Leg A of `create_spot_futures_pair`: market-buy the spot. -/
def spotLegRequest (exchange symbol : String) (amount : ℚ) (strategy_id : ℕ)
    (strategy_type : String) : OrderRequest :=
  { exchange := exchange, symbol := symbol, side := "buy", amount := amount
    order_type := "market", is_futures := false, strategy_id := some strategy_id
    strategy_type := strategy_type, check_depth := true }

/-- Leg B of `create_spot_futures_pair`: market-sell (short) the perpetual. -/
def futuresLegRequest (exchange symbol : String) (amount : ℚ) (strategy_id : ℕ)
    (strategy_type : String) : OrderRequest :=
  { exchange := exchange, symbol := symbol, side := "sell", amount := amount
    order_type := "market", is_futures := true, strategy_id := some strategy_id
    strategy_type := strategy_type, check_depth := true }

/-- Fee read-back for one leg: `SELECT fee_cost FROM orders WHERE
order_id = ? AND exchange = ?`, added only when truthy. -/
def legFee (feeOf : String → String → Option ℚ) (o : Option OrderData)
    (exchange : String) : ℚ :=
  match o with
  | none => 0
  | some od =>
    match feeOf od.id exchange with
    | some f => if f ≠ 0 then f else 0
    | none => 0

/-- Hedge-pair placement for S2A/S2B (`core/order_manager.py`,
`create_spot_futures_pair`). `place` abstracts `create_order` (a `none`
result is a failed leg); `feeOf` abstracts the per-order fee read-back from
the `orders` table. Returns the `create_order` requests issued in order,
and the pair result. On a leg-B failure the leg-A spot buy is reversed via
`_rollback_order` and failure is returned. -/
def create_spot_futures_pair (place : OrderRequest → Option OrderData)
    (feeOf : String → String → Option ℚ) (exchange symbol : String)
    (amount : ℚ) (strategy_id : ℕ) (strategy_type : String) :
    List OrderRequest × PairResult :=
  let reqA := spotLegRequest exchange symbol amount strategy_id strategy_type
  match place reqA with
  | none => ([reqA], ⟨none, none, false, 0⟩)
  | some spot_order =>
    let reqB := futuresLegRequest exchange symbol amount strategy_id strategy_type
    match place reqB with
    | none =>
      let rb := rollbackOrderRequest exchange symbol "buy" amount false
      ([reqA, reqB, rb], ⟨some spot_order, none, false, 0⟩)
    | some futures_order =>
      let total_fee := legFee feeOf (some spot_order) exchange
        + legFee feeOf (some futures_order) exchange
      ([reqA, reqB], ⟨some spot_order, some futures_order, true, total_fee⟩)

/-! ## core/strategy_executor.py : opening positions -/

/-- Trace events of the executor: `positions`-table writes and operator
callbacks. The `entry_details` JSON bag is not modelled. -/
inductive ExecEvent where
  | insertPosition (id : ℕ) (strategy_type : String) (symbol : String)
      (exchanges : List String) (position_size : ℚ) (status : String)
  | setStatus (id : ℕ) (status : String)
  | setFeesPaid (id : ℕ) (fee : ℚ)
  | setClosedAutoSync (id : ℕ)
  | updateSizePrice (id : ℕ) (contracts entry_price : ℚ)
  | callbackPositionOpened (id : ℕ)
  | callbackPositionAutoClosed (id : ℕ)
  | callbackPositionUpdated (id : ℕ)
  | callbackPositionMismatch (exchange symbol side : String)
      (contracts entry_price : ℚ)
deriving DecidableEq

/-- Outcome dict of an `_execute_*` method: the `success` flag and the
`position_id` carried on success. -/
structure ExecResult where
  success : Bool
  position_id : Option ℕ
deriving DecidableEq

/-- The opportunity fields `_execute_cross_exchange_funding` reads. -/
structure S1ExecOpp where
  symbol : String
  long_exchange : String
  short_exchange : String
  position_size : ℚ
  long_entry_price : ℚ
  short_entry_price : ℚ
deriving DecidableEq

/-- S1 execution path (`core/strategy_executor.py`,
`_execute_cross_exchange_funding`), given the order manager's pair result.
The source inserts the Position row, marks it `failed` when the pair
fails, and - when the pair succeeds with a positive `total_fee` - persists
the fee and then immediately executes a stray
`return (success False, error)` (line 206), so the `position_opened`
callback and the success return are only reached when `total_fee ≤ 0`. -/
def execCrossExchangeFunding (opp : S1ExecOpp) (orders : PairResult)
    (position_id : ℕ) : List ExecEvent × ExecResult :=
  let ins := ExecEvent.insertPosition position_id "funding_rate_cross_exchange"
    opp.symbol [opp.long_exchange, opp.short_exchange] opp.position_size "open"
  if !orders.success then
    ([ins, .setStatus position_id "failed"], ⟨false, none⟩)
  else if 0 < orders.total_fee then
    ([ins, .setFeesPaid position_id orders.total_fee], ⟨false, none⟩)
  else
    ([ins, .callbackPositionOpened position_id], ⟨true, some position_id⟩)

/-- The opportunity fields `_execute_spot_futures_funding` reads. -/
structure S2AExecOpp where
  symbol : String
  exchange : String
  position_size : ℚ
  spot_price : ℚ
  futures_price : ℚ
deriving DecidableEq

/-- S2A execution path (`core/strategy_executor.py`,
`_execute_spot_futures_funding`), given the order manager's pair result:
insert the Position row, mark it `failed` on pair failure, otherwise
persist a positive total fee, fire `position_opened` and return success
with the position id. -/
def execSpotFuturesFunding (opp : S2AExecOpp) (orders : PairResult)
    (position_id : ℕ) : List ExecEvent × ExecResult :=
  let ins := ExecEvent.insertPosition position_id "funding_rate_spot_futures"
    opp.symbol [opp.exchange] opp.position_size "open"
  if !orders.success then
    ([ins, .setStatus position_id "failed"], ⟨false, none⟩)
  else if 0 < orders.total_fee then
    ([ins, .setFeesPaid position_id orders.total_fee,
      .callbackPositionOpened position_id], ⟨true, some position_id⟩)
  else
    ([ins, .callbackPositionOpened position_id], ⟨true, some position_id⟩)

/-! ## core/strategy_executor.py : exchange reconciliation -/

/-- A database position as read by `_sync_positions_with_exchange`:
`entry_exchange` and `entry_direction` are `entry_details.get` with default
`""`. The row carries the `positions` schema columns only; there is no
`entry_price` column (see `dbEntryPrice`). -/
structure DbPos where
  id : ℕ
  symbol : String
  entry_exchange : String
  entry_direction : String
  position_size : ℚ
  status : String
deriving DecidableEq

/-- The reconciler reads `db_pos.get` with key `entry_price` and default
0: the `positions` table has no `entry_price` column, so the read always
yields the default 0. -/
def dbEntryPrice (dp : DbPos) : ℚ := 0

/-- The columns of the `positions` table: the CREATE TABLE in
`database/db_manager.py` plus the three trailing-stop ALTER TABLE
migrations (which add no further names). -/
def positionsColumns : List String :=
  ["id", "strategy_type", "symbol", "exchanges", "entry_details",
   "position_size", "current_pnl", "realized_pnl", "funding_collected",
   "fees_paid", "status", "open_time", "close_time",
   "trailing_stop_activated", "best_price", "activation_price"]

/-- Columns assigned by the reconciler close-UPDATE (`SET status,
exit_details, updated_at`). -/
def syncCloseColumns : List String := ["status", "exit_details", "updated_at"]

/-- Columns assigned by the reconciler size/price-UPDATE
(`SET position_size, entry_price, entry_details, updated_at`). -/
def syncUpdateColumns : List String :=
  ["position_size", "entry_price", "entry_details", "updated_at"]

/-- Whether an UPDATE assigning these columns raises
`sqlite3.OperationalError` (some assigned column is missing from the
table). `db_manager.execute_query` logs and re-raises, so the error
propagates to the caller. -/
def updateFails (cols : List String) : Bool :=
  cols.any fun c => !(positionsColumns.contains c)

/-- A venue-reported position from `adapter.get_positions()`. Venue symbols
are modelled as already normalised to `BASE/USDT` (the source strips a
`:USDT` suffix). -/
structure RealPos where
  symbol : String
  side : String
  contracts : ℚ
  entryPrice : ℚ
deriving DecidableEq

/-- Lookup in an insertion-ordered association list keyed by
`(symbol, side)`. -/
def lookupKey : List ((String × String) × RealPos) → String × String →
    Option RealPos
  | [], _ => none
  | (k, v) :: rest, q => if k = q then some v else lookupKey rest q

/-- In-place overwrite / append for the `(symbol, side)` dictionary. -/
def upsertKey : List ((String × String) × RealPos) → String × String →
    RealPos → List ((String × String) × RealPos)
  | [], q, v => [(q, v)]
  | (k, v0) :: rest, q, v =>
    if k = q then (q, v) :: rest else (k, v0) :: upsertKey rest q v

/-- Build the `real_positions_dict` of the sync: venue positions with
`contracts > 0`, keyed by `(symbol, side)`, later entries overwriting. -/
def buildRealDict (rows : List RealPos) : List ((String × String) × RealPos) :=
  rows.foldl
    (fun m rp => if 0 < rp.contracts then upsertKey m (rp.symbol, rp.side) rp else m)
    []

/-- Append a position to a symbol group (insertion-ordered). -/
def groupInsert : List (String × List DbPos) → String → DbPos →
    List (String × List DbPos)
  | [], k, p => [(k, [p])]
  | (k0, ps) :: rest, k, p =>
    if k0 = k then (k0, ps ++ [p]) :: rest else (k0, ps) :: groupInsert rest k p

/-- Lookup a symbol group. -/
def lookupGroup : List (String × List DbPos) → String → Option (List DbPos)
  | [], _ => none
  | (k0, ps) :: rest, k => if k0 = k then some ps else lookupGroup rest k

/-- Append a position into the nested exchange → symbol → positions
grouping. -/
def groupInsert2 : List (String × List (String × List DbPos)) → String →
    String → DbPos → List (String × List (String × List DbPos))
  | [], e, s, p => [(e, [(s, [p])])]
  | (e0, sym) :: rest, e, s, p =>
    if e0 = e then (e0, groupInsert sym s p) :: rest
    else (e0, sym) :: groupInsert2 rest e s p

/-- The `positions_by_exchange` grouping of the sync (insertion-ordered
nested dicts). -/
def groupByExchange (ps : List DbPos) : List (String × List (String × List DbPos)) :=
  ps.foldl (fun m p => groupInsert2 m p.entry_exchange p.symbol p) []

/-- One DB-side reconciliation step for a single open position. When the
venue has no `(symbol, direction)` match the code runs the close-UPDATE;
when contracts or entry price (the DB side reading
`dbEntryPrice dp = 0`) differ by more than `1e-4` it runs the
size/price-UPDATE. Either UPDATE raises when it assigns a column missing
from the `positions` table, before any write or callback: the step then
returns `none` and the per-exchange handler aborts. Within tolerance
nothing happens (`some []`). -/
def syncDbStep (rd : List ((String × String) × RealPos)) (sym : String)
    (dp : DbPos) : Option (List ExecEvent) :=
  match lookupKey rd (sym, dp.entry_direction) with
  | none =>
    if updateFails syncCloseColumns then none
    else some [.setClosedAutoSync dp.id, .callbackPositionAutoClosed dp.id]
  | some rp =>
    if 0.0001 < |rp.contracts - dp.position_size| ∨
        0.0001 < |rp.entryPrice - dbEntryPrice dp| then
      if updateFails syncUpdateColumns then none
      else some [.updateSizePrice dp.id rp.contracts rp.entryPrice,
        .callbackPositionUpdated dp.id]
    else some []

/-- The nested symbol-then-positions iteration of the DB-side loop,
flattened in order. -/
def flattenSymbols (symbols : List (String × List DbPos)) :
    List (String × DbPos) :=
  symbols.flatMap fun sg => sg.2.map fun dp => (sg.1, dp)

/-- The DB-side loop with exception propagation: the first raising step
aborts (second component `false`), keeping the events emitted before it;
`true` means the loop completed. -/
def syncDbSideRun (rd : List ((String × String) × RealPos)) :
    List (String × DbPos) → List ExecEvent × Bool
  | [] => ([], true)
  | (sym, dp) :: rest =>
    match syncDbStep rd sym dp with
    | none => ([], false)
    | some evs =>
      (evs ++ (syncDbSideRun rd rest).1, (syncDbSideRun rd rest).2)

/-- Second half of the per-exchange sync: venue positions with no DB match
only raise a `position_mismatch` callback ("possibly a manual position, not
auto-added to the database" per the source log). The first guard mirrors
the `key.split` length check, which silently skips keys whose symbol or
side contains an underscore; the source's `found` flag (scan of
`symbols[symbol]` for a matching direction) is the match below. -/
def syncVenueSide (symbols : List (String × List DbPos))
    (rd : List ((String × String) × RealPos)) (exchange_name : String) :
    List ExecEvent :=
  rd.flatMap fun kv =>
    if kv.1.1.data.contains (Char.ofNat 95) || kv.1.2.data.contains (Char.ofNat 95) then []
    else
      match lookupGroup symbols kv.1.1 with
      | some dbl =>
        if dbl.any (fun dp => dp.entry_direction == kv.1.2) then []
        else [.callbackPositionMismatch exchange_name kv.1.1 kv.1.2
          kv.2.contracts kv.2.entryPrice]
      | none => [.callbackPositionMismatch exchange_name kv.1.1 kv.1.2
          kv.2.contracts kv.2.entryPrice]

/-- The executor's `get_open_positions()` read on the reconciler's view of
the `positions` table. -/
def openDbPositions (db : List DbPos) : List DbPos :=
  db.filter fun p => p.status == "open"

/-- One exchange reconciliation pass: the DB-side loop first; the
venue-side mismatch loop runs only when no DB-side step raised (the
per-exchange `except` block swallows the error after logging, skipping
the rest of this exchange). -/
def syncExchangeRun (symbols : List (String × List DbPos))
    (rd : List ((String × String) × RealPos)) (exchange_name : String) :
    List ExecEvent :=
  match syncDbSideRun rd (flattenSymbols symbols) with
  | (evs, true) => evs ++ syncVenueSide symbols rd exchange_name
  | (evs, false) => evs

/-- One run of `_sync_positions_with_exchange`
(`core/strategy_executor.py`): group the DB open positions per exchange,
fetch the venue positions (`adapters` returns `none` for a missing
adapter), reconcile both directions per exchange and return the event
trace. -/
def syncPositionsWithExchange (db : List DbPos)
    (adapters : String → Option (List RealPos)) : List ExecEvent :=
  if (openDbPositions db).isEmpty then []
  else
    (groupByExchange (openDbPositions db)).flatMap fun eg =>
      match adapters eg.1 with
      | none => []
      | some real => syncExchangeRun eg.2 (buildRealDict real) eg.1

/-- Whether an executor event creates a new `positions` row. -/
def isInsertPosition : ExecEvent → Bool
  | .insertPosition _ _ _ _ _ _ => true
  | _ => false

/-! ## core/strategy_executor.py : funding accrual -/

/-- A row of the `funding_rates` table. Timestamps are milliseconds. -/
structure FundingRow where
  exchange : String
  symbol : String
  timestamp : ℤ
  funding_rate : ℚ
  next_funding_time : Option ℤ
  funding_interval : Option ℤ
deriving DecidableEq

/-- The funding-history query of the accrual computations:
rows of `(exchange, symbol)` whose `next_funding_time` lies in
`(open_ms, now_ms]`. (SQL `NULL` never satisfies the comparisons.) The SQL
orders rows by `next_funding_time`; ties keep an unspecified order, and the
value computed below does not depend on the order of rows with distinct
settlement instants, so the query is modelled as returning matching rows in
table order. -/
def fundingRowMatches (exchange symbol : String) (open_ms now_ms : ℤ)
    (r : FundingRow) : Bool :=
  r.exchange == exchange && r.symbol == symbol &&
    match r.next_funding_time with
    | some t => decide (open_ms < t ∧ t ≤ now_ms)
    | none => false

def fundingHistoryQuery (tbl : List FundingRow) (exchange symbol : String)
    (open_ms now_ms : ℤ) : List FundingRow :=
  tbl.filter (fundingRowMatches exchange symbol open_ms now_ms)

/-- The interval-probe query of `_calculate_single_exchange_funding`: all
funding rows of `(exchange, symbol)` (the source reads only the newest
row's `funding_interval`, and only early-returns when there is none). -/
def venueSymbolRows (tbl : List FundingRow) (exchange symbol : String) :
    List FundingRow :=
  tbl.filter fun r => r.exchange == exchange && r.symbol == symbol

/-- Lookup in the settlement map `instant → (rate, sample timestamp)`. -/
def lookupSettlement : List (ℤ × ℚ × ℤ) → ℤ → Option (ℚ × ℤ)
  | [], _ => none
  | e :: rest, k => if e.1 = k then some e.2 else lookupSettlement rest k

/-- In-place overwrite / append for the settlement map. -/
def setSettlement : List (ℤ × ℚ × ℤ) → ℤ → ℚ × ℤ → List (ℤ × ℚ × ℤ)
  | [], k, v => [(k, v)]
  | e :: rest, k, v =>
    if e.1 = k then (k, v) :: rest else e :: setSettlement rest k v

/-- One step of the settlement de-duplication
(`settlement_records[nft] = (rate, ts)` under
`nft not in records or ts > records[nft][1]`): keep, per settlement
instant, the sample with the greatest timestamp; on equal timestamps the
first sample wins. The `if next_funding_time:` truthiness re-check of the
source (zero is falsy) is kept. -/
def stepSettlement (m : List (ℤ × ℚ × ℤ)) (row : FundingRow) :
    List (ℤ × ℚ × ℤ) :=
  match row.next_funding_time with
  | none => m
  | some t =>
    if t = 0 then m
    else
      match lookupSettlement m t with
      | none => setSettlement m t (row.funding_rate, row.timestamp)
      | some e => if e.2 < row.timestamp then
          setSettlement m t (row.funding_rate, row.timestamp)
        else m

/-- Build the de-duplicated settlement map from a funding history. -/
def buildSettlements (rows : List FundingRow) : List (ℤ × ℚ × ℤ) :=
  rows.foldl stepSettlement []

/-- Per-settlement contribution of a non-S1 position: `+size·rate` for
S2A/S2B and S3-short, `−size·rate` for S3-long, 0 for any other strategy
tag (neither branch of the source `if`/`elif` adds anything).
`direction` is `entry_details.get(direction, short)`. -/
def settlementContribution (strategy_type direction : String)
    (position_size rate : ℚ) : ℚ :=
  if strategy_type == "funding_rate_spot_futures" ||
      strategy_type == "basis_arbitrage" then position_size * rate
  else if strategy_type == "directional_funding" then
    if direction == "short" then position_size * rate else -(position_size * rate)
  else 0

/-- One fold step of the newest-row probe. -/
def newerRow (acc : Option FundingRow) (x : FundingRow) : Option FundingRow :=
  match acc with
  | none => some x
  | some b => if b.timestamp < x.timestamp then some x else some b

/-- The newest funding row of a row set - the SQL
`ORDER BY timestamp DESC LIMIT 1` probe. Among equal timestamps the
returned row is unspecified in SQLite; modelled as the first in table
order. -/
def newestRow (rows : List FundingRow) : Option FundingRow :=
  rows.foldl newerRow none

/-- Funding accrued by a single-venue position
(`core/strategy_executor.py`, `_calculate_single_exchange_funding`):
0 when the venue has no funding rows at all for the symbol (the interval
probe returns nothing); 0 when the newest probed row's `funding_interval`
is NULL - the division `funding_interval_ms / 3600000` then raises a
`TypeError` swallowed by the handler, and NULL intervals are inserted by
the collector whenever every interval source of `get_funding_rate`
fails; 0 when the windowed history is empty; otherwise the sum of the
per-instant contributions over the de-duplicated settlement map. The
source iterates instants in sorted order; the sum is
order-independent. -/
def calcSingleExchangeFunding (tbl : List FundingRow)
    (strategy_type direction : String) (exchange symbol : String)
    (position_size : ℚ) (open_ms now_ms : ℤ) : ℚ :=
  match newestRow (venueSymbolRows tbl exchange symbol) with
  | none => 0
  | some latest =>
    match latest.funding_interval with
    | none => 0
    | some _ =>
      if (fundingHistoryQuery tbl exchange symbol open_ms now_ms).isEmpty then 0
      else
        ((buildSettlements (fundingHistoryQuery tbl exchange symbol open_ms now_ms)).map
          fun e => settlementContribution strategy_type direction position_size e.2.1).sum

/-- The common settlement instants of the two venues
(`set(long) & set(short)` in the source, ordered by the long venue's map;
the subsequent sum is order-independent). -/
def commonSettlements (lm sm : List (ℤ × ℚ × ℤ)) : List (ℤ × ℚ × ℤ) :=
  lm.filter fun e => (lookupSettlement sm e.1).isSome

/-- Sum of `size·(rate_short − rate_long)` over the common settlement
instants. -/
def crossSettlementSum (lm sm : List (ℤ × ℚ × ℤ)) (position_size : ℚ) : ℚ :=
  ((commonSettlements lm sm).map fun e =>
    match lookupSettlement sm e.1 with
    | some sr => position_size * (sr.1 - e.2.1)
    | none => 0).sum

/-- Funding accrued by an S1 cross-exchange position
(`core/strategy_executor.py`, `_calculate_cross_exchange_funding`):
0 when either venue's windowed history is empty or the venues share no
settlement instant; otherwise `Σ size·(rate_short − rate_long)` over the
common de-duplicated instants. -/
def calcCrossExchangeFunding (tbl : List FundingRow)
    (symbol long_exchange short_exchange : String) (position_size : ℚ)
    (open_ms now_ms : ℤ) : ℚ :=
  if (fundingHistoryQuery tbl long_exchange symbol open_ms now_ms).isEmpty ||
      (fundingHistoryQuery tbl short_exchange symbol open_ms now_ms).isEmpty then 0
  else if (commonSettlements
      (buildSettlements (fundingHistoryQuery tbl long_exchange symbol open_ms now_ms))
      (buildSettlements (fundingHistoryQuery tbl short_exchange symbol open_ms now_ms))).isEmpty
    then 0
  else
    crossSettlementSum
      (buildSettlements (fundingHistoryQuery tbl long_exchange symbol open_ms now_ms))
      (buildSettlements (fundingHistoryQuery tbl short_exchange symbol open_ms now_ms))
      position_size

/-- Modelled from the spec (for comparison with
`calcSingleExchangeFunding`): the claim sums `size·rate` over the distinct
settlement instants lying in the closed window `[open_time, now]`,
de-duplicated keeping the newest sample. -/
def claimWindowFunding (tbl : List FundingRow) (exchange symbol : String)
    (position_size : ℚ) (open_ms now_ms : ℤ) : ℚ :=
  ((buildSettlements (tbl.filter fun r =>
    r.exchange == exchange && r.symbol == symbol &&
      match r.next_funding_time with
      | some t => decide (open_ms ≤ t ∧ t ≤ now_ms)
      | none => false)).map fun e => position_size * e.2.1).sum

/-! ## Concrete scenarios used by the claim theorems -/

/-- An S1 opportunity as admitted by the executor (scenario input). -/
def oppC1 : S1ExecOpp :=
  ⟨"BTC/USDT", "binance", "okx", 10000, 50000, 50010⟩

/-- A successful cross-exchange hedge with a 1 USDT total opening fee. -/
def pairC1 : PairResult := ⟨some ⟨"L1"⟩, some ⟨"S1"⟩, true, 1⟩

/-- Market entry of the S2A seed scenario: `spot_ask=100`,
`futures_bid=100.4`, `rate=0.0008`, `maker=taker=0.0004`. -/
def entryC2 : MarketEntry :=
  { funding_rate := some 0.0008, spot_ask := some 100, futures_bid := some 100.4,
    spot_price := some 100, futures_price := some 100.4,
    taker_fee := some 0.0004, maker_fee := some 0.0004 }

/-- Risk configuration with a global cap of two open positions. -/
def cfgC6 : RiskConfig := { max_positions := 2 }

/-- An open position row of size 10 with flat P&L. -/
def rowC6 : PositionRow := ⟨1, "funding_rate_spot_futures", "BTC/USDT", 10, 0, "open"⟩

/-- A positions table already holding `max_positions` open rows. -/
def dbC6 : List PositionRow := [rowC6, { rowC6 with id := 2 }]

/-- An opportunity whose requested size 2000 exceeds the per-trade cap. -/
def oppC6 : RiskOpp := ⟨"BTC/USDT", 2000, "funding_rate_spot_futures", 0, 70⟩

/-- Risk thresholds of the emergency scenario (5% / 10% / 15%). -/
def cfgC9 : RiskThresholds := ⟨0.05, 0.10, 0.15⟩

/-- A single open position of size 10000 with unrealised P&L −1550
(`pnl_pct = −0.155`). -/
def dbC9 : List PositionRow :=
  [⟨1, "directional_funding", "BTC/USDT", 10000, -1550, "open"⟩]

/-- An open position with a small positive P&L (no risk band breached). -/
def posC10 : PositionRow := ⟨3, "funding_rate_spot_futures", "ETH/USDT", 100, 2, "open"⟩

/-- An open position in the critical band (`pnl_pct = -0.012`). -/
def posC10b : PositionRow :=
  ⟨4, "funding_rate_spot_futures", "ETH/USDT", 100, -1.2, "open"⟩

/-- Market entry of the profitable S2A seed variant: same prices and rate
as `entryC2`, but `taker=0.0002`, `maker=0.0001`. -/
def entryC2w : MarketEntry :=
  { funding_rate := some 0.0008, spot_ask := some 100, futures_bid := some 100.4,
    spot_price := some 100, futures_price := some 100.4,
    taker_fee := some 0.0002, maker_fee := some 0.0001 }

/-- S2A pair configuration of the seed scenario (`position_size = 1000`). -/
def cfgC2 : S2AConfig := { s2a_position_size := 1000 }

/-- A one-position reconciliation database: one open long on binance. -/
def dbC5 : List DbPos := [⟨1, "BTC/USDT", "binance", "long", 1, "open"⟩]

/-- Venue positions, aborting run: the binance long matches the DB row in
size but reports entry price 100, far from the schema-default 0 the DB
side reads, so the size/price-UPDATE is attempted and raises; plus an
ETH short the database does not know. -/
def realC5a : List RealPos :=
  [⟨"BTC/USDT", "long", 1, 100⟩, ⟨"ETH/USDT", "short", 2, 2000⟩]

/-- Venue positions, completing run: the binance long matches the DB row
within tolerance (entry price 0), plus the unknown ETH short. -/
def realC5b : List RealPos :=
  [⟨"BTC/USDT", "long", 1, 0⟩, ⟨"ETH/USDT", "short", 2, 2000⟩]

/-- Adapters for the aborting reconciliation scenario. -/
def adaptersC5a : String → Option (List RealPos) :=
  fun e => if e = "binance" then some realC5a else none

/-- Adapters for the completing reconciliation scenario. -/
def adaptersC5b : String → Option (List RealPos) :=
  fun e => if e = "binance" then some realC5b else none

/-- A venue that fills spot legs and rejects futures legs (leg B fails). -/
def placeC7 : OrderRequest → Option OrderData :=
  fun r => if r.is_futures then none else some ⟨"SIM_1"⟩

/-- Fee read-back oracle with no recorded fees. -/
def feeC7 : String → String → Option ℚ := fun _ _ => none

/-- The S2A opportunity being executed in the rollback scenario. -/
def oppC7 : S2AExecOpp := ⟨"BTC/USDT", "gate", 1000, 100, 100.4⟩

/-- A funding-rate table holding one sample whose settlement instant is
exactly the position's `open_time` (1000 ms). -/
def tblC8 : List FundingRow := [⟨"okx", "BTC/USDT", 5, 1/1000, some 1000, some 28800000⟩]

/-- A funding-rate table whose only (and hence newest) sample has a NULL
`funding_interval` and a settlement instant inside the window. -/
def tblC8n : List FundingRow := [⟨"okx", "BTC/USDT", 5, 1/1000, some 2000, none⟩]

/-- A funding-rate sample inside the accrual window. -/
def rowC8 : FundingRow := ⟨"okx", "BTC/USDT", 6, 2/1000, some 2000, some 28800000⟩

/-- A one-sample funding-rate table for the duplication witness. -/
def tblC8w : List FundingRow := [rowC8]

/-! ## Claim theorems -/

/-- Claim C1. The claim states that an S1 opportunity passing the risk
check whose hedge succeeds gets its total opening fee persisted, the
`position_opened` callback fired, and a success result with the position
id. The code persists the fee but then hits a stray
`return (success False)` (strategy_executor.py line 206), so with any
positive fee the callback never fires and failure is returned: evaluated
here on a successful hedge with `total_fee = 1`. -/
theorem c1_s1_fee_path_returns_failure :
    (execCrossExchangeFunding oppC1 pairC1 1).2 = ⟨false, none⟩ ∧
    ExecEvent.setFeesPaid 1 1 ∈ (execCrossExchangeFunding oppC1 pairC1 1).1 ∧
    ExecEvent.callbackPositionOpened 1 ∉ (execCrossExchangeFunding oppC1 pairC1 1).1 := by
  decide

/-- Claim C9. The claim states the emergency pass flips the position to
`emergency_close_pending` and the executor's monitor loop then closes it.
The risk pass does emit the emergency event and flip the status, but the
monitor loop iterates `get_open_positions()` (`status = open` only), so
the flipped position is invisible to it and no close is issued. -/
theorem c9_emergency_close_is_dead_code :
    checkAllPositions cfgC9 dbC9 =
      ([⟨"emergency", "position_loss", some 1⟩], [(1, "emergency_close_pending")]) ∧
    executorMonitorCloses (applyStatusUpdates dbC9 (checkAllPositions cfgC9 dbC9).2) = [] := by
  norm_num [checkAllPositions, openPositionsQ, cfgC9, dbC9, checkPositionRisk, pnlPct,
    executorMonitorCloses, applyStatusUpdates]
  decide

/-- Claim C10. One risk-monitoring pass emits at most one event per
position, and with ordered thresholds exactly the highest breached band
fires: below the emergency threshold only the emergency event, in the
critical band only the critical event, in the warning band only the
warning event, and at or above the negated warning threshold none. -/
theorem c10_single_event_per_pass (cfg : RiskThresholds) (p : PositionRow)
    (hwc : cfg.warning_threshold ≤ cfg.critical_threshold)
    (hce : cfg.critical_threshold ≤ cfg.emergency_threshold) :
    (checkPositionRisk cfg p).1.length ≤ 1 ∧
    (pnlPct p < -cfg.emergency_threshold →
      (checkPositionRisk cfg p).1 = [⟨"emergency", "position_loss", some p.id⟩]) ∧
    (-cfg.emergency_threshold ≤ pnlPct p → pnlPct p < -cfg.critical_threshold →
      (checkPositionRisk cfg p).1 = [⟨"critical", "position_loss", some p.id⟩]) ∧
    (-cfg.critical_threshold ≤ pnlPct p → pnlPct p < -cfg.warning_threshold →
      (checkPositionRisk cfg p).1 = [⟨"warning", "position_loss", some p.id⟩]) ∧
    (-cfg.warning_threshold ≤ pnlPct p → (checkPositionRisk cfg p).1 = []) := by
  unfold checkPositionRisk
  split_ifs with h1 h2 h3 <;>
    refine ⟨by simp, fun he => ?_, fun hc1 hc2 => ?_, fun hw1 hw2 => ?_,
      fun hn => ?_⟩ <;> first
      | rfl
      | (exfalso; linarith)

/-- Witness for C10 at the default thresholds: a position with positive
P&L emits nothing and one in the critical band emits exactly the critical
event. -/
theorem c10_witness :
    (0.005 : ℚ) ≤ 0.010 ∧ (0.010 : ℚ) ≤ 0.015 ∧
    -(0.005 : ℚ) ≤ pnlPct posC10 ∧
    (checkPositionRisk ⟨0.005, 0.010, 0.015⟩ posC10).1 = [] ∧
    -(0.015 : ℚ) ≤ pnlPct posC10b ∧ pnlPct posC10b < -(0.010 : ℚ) ∧
    (checkPositionRisk ⟨0.005, 0.010, 0.015⟩ posC10b).1
      = [⟨"critical", "position_loss", some 4⟩] := by
  refine ⟨by norm_num, by norm_num, by norm_num [pnlPct, posC10], ?_,
    by norm_num [pnlPct, posC10b], by norm_num [pnlPct, posC10b], ?_⟩
  · exact (c10_single_event_per_pass ⟨0.005, 0.010, 0.015⟩ posC10
      (by norm_num) (by norm_num)).2.2.2.2 (by norm_num [pnlPct, posC10])
  · exact (c10_single_event_per_pass ⟨0.005, 0.010, 0.015⟩ posC10b
      (by norm_num) (by norm_num)).2.2.1
      (by norm_num [pnlPct, posC10b]) (by norm_num [pnlPct, posC10b])

/-- Claim C6 counterexample. The claim states the open-position-count gate
fires (`passed = false`) even when the requested size exceeds the per-trade
cap. In the code the size clamp returns `passed = true` immediately, before
the count gate: here the table already holds `max_positions = 2` open rows,
yet the oversized request passes with the clamped size 1000. -/
theorem c6_counterexample :
    checkPreTradeRisk cfgC6 dbC6 oppC6 = ⟨true, 1000⟩ ∧
    cfgC6.max_positions ≤ (openPositionsQ dbC6).length ∧
    cfgC6.max_position_size_per_trade < oppC6.position_size := by
  norm_num [checkPreTradeRisk, totalLossPct, totalOpenPnl, openPositionsQ, cfgC6, dbC6,
    rowC6, oppC6]

/-- Claim C6 (amended). The open-position-count gate returns
`passed = false` only when no earlier gate returned first: with the
aggregate drawdown within bounds, the requested size within the per-trade
cap and within the available capital, an open-position count at or above
`max_positions` is rejected. (When the size exceeds the per-trade cap the
check returns `passed = true` with the clamped size at once, skipping the
remaining gates.) -/
theorem c6_max_positions_gate (cfg : RiskConfig) (db : List PositionRow)
    (opp : RiskOpp)
    (h0 : -cfg.max_drawdown ≤ totalLossPct cfg db)
    (h1 : opp.position_size ≤ cfg.max_position_size_per_trade)
    (h2 : opp.position_size ≤ availableCapital cfg db)
    (h3 : cfg.max_positions ≤ (openPositionsQ db).length) :
    checkPreTradeRisk cfg db opp = ⟨false, opp.position_size⟩ := by
  unfold checkPreTradeRisk
  rw [if_neg (not_lt.mpr h0), if_neg (not_lt.mpr h1), if_neg (not_lt.mpr h2),
    if_pos h3]

/-- Witness for the amended C6 at a one-slot configuration: a second
in-budget request is rejected by the count gate. -/
theorem c6_witness :
    -({ max_positions := 1 : RiskConfig }).max_drawdown ≤
      totalLossPct { max_positions := 1 } [rowC6] ∧
    (50 : ℚ) ≤ ({ max_positions := 1 : RiskConfig }).max_position_size_per_trade ∧
    (50 : ℚ) ≤ availableCapital { max_positions := 1 } [rowC6] ∧
    ({ max_positions := 1 : RiskConfig }).max_positions ≤ (openPositionsQ [rowC6]).length ∧
    checkPreTradeRisk { max_positions := 1 } [rowC6]
      ⟨"BTC/USDT", 50, "funding_rate_spot_futures", 0, 70⟩ = ⟨false, 50⟩ := by
  have ha : -({ max_positions := 1 : RiskConfig }).max_drawdown ≤
      totalLossPct { max_positions := 1 } [rowC6] := by
    norm_num [totalLossPct, totalOpenPnl, openPositionsQ, rowC6]
  have hb : (50 : ℚ) ≤ ({ max_positions := 1 : RiskConfig }).max_position_size_per_trade := by
    norm_num
  have hc : (50 : ℚ) ≤ availableCapital { max_positions := 1 } [rowC6] := by
    norm_num [availableCapital, usedCapital, openPositionsQ, rowC6]
  have hd : ({ max_positions := 1 : RiskConfig }).max_positions ≤
      (openPositionsQ [rowC6]).length := by
    norm_num [openPositionsQ, rowC6]
  exact ⟨ha, hb, hc, hd, c6_max_positions_gate { max_positions := 1 } [rowC6]
    ⟨"BTC/USDT", 50, "funding_rate_spot_futures", 0, 70⟩ ha hb hc hd⟩

/-- Helper for C3: the scanner conversion of a present cached interval. -/
theorem scannerFundingFrequency_some (v : ℤ) (d : MarketEntry) (e : String) :
    scannerFundingFrequency (some v) d e
      = if (v : ℚ) ≠ 0 then
          (if 0 < (v : ℚ) / 3600000 then ⌊(v : ℚ) / 3600000⌋ else 8)
        else 8 := rfl

/-- Helper for C3: the scanner conversion of an absent cached interval. -/
theorem scannerFundingFrequency_none (d : MarketEntry) (e : String) :
    scannerFundingFrequency none d e = 8 := rfl

/-- Claim C3. End-to-end funding-frequency precedence: a venue-reported
interval (here the parsed CCXT hours) wins regardless of history; with no
venue-reported source, `get_funding_rate` derives the interval from the
difference of the two most-recent historical settlement timestamps,
accepted exactly when it lies between 1h and 24h inclusive, and the
scanner converts it to whole hours; otherwise the interval stays unset
and the scanner falls back to the default 8. In particular, with no venue
interval, histories 4h apart give `h = 4`, 8h apart give `h = 8`, and 25h
apart are rejected, giving `h = 8`. -/
theorem c3_funding_frequency_precedence (hours : ℤ) (fi : Option ℤ)
    (ih isec : Option ℚ) (hist : List ℤ) (t0 t1 : ℤ) (rest : List ℤ)
    (d : MarketEntry) (e : String) :
    (0 < hours →
      deriveFundingInterval (some hours) fi ih isec hist = some (hours * 3600000) ∧
      scannerFundingFrequency (deriveFundingInterval (some hours) fi ih isec hist) d e
        = hours) ∧
    (3600000 ≤ |t0 - t1| → |t0 - t1| ≤ 86400000 →
      deriveFundingInterval none none none none (t0 :: t1 :: rest) = some |t0 - t1| ∧
      scannerFundingFrequency
          (deriveFundingInterval none none none none (t0 :: t1 :: rest)) d e
        = ⌊(|t0 - t1| : ℚ) / 3600000⌋) ∧
    (|t0 - t1| < 3600000 ∨ 86400000 < |t0 - t1| →
      scannerFundingFrequency
          (deriveFundingInterval none none none none (t0 :: t1 :: rest)) d e = 8) ∧
    scannerFundingFrequency (deriveFundingInterval none none none none []) d e = 8 ∧
    scannerFundingFrequency
        (deriveFundingInterval none none none none [t1 + 14400000, t1]) d e = 4 ∧
    scannerFundingFrequency
        (deriveFundingInterval none none none none [t1 + 28800000, t1]) d e = 8 ∧
    scannerFundingFrequency
        (deriveFundingInterval none none none none [t1 + 90000000, t1]) d e = 8 := by
  have habs4 : |t1 + 14400000 - t1| = (14400000 : ℤ) := by
    rw [show t1 + 14400000 - t1 = (14400000 : ℤ) by ring]; norm_num
  have habs8 : |t1 + 28800000 - t1| = (28800000 : ℤ) := by
    rw [show t1 + 28800000 - t1 = (28800000 : ℤ) by ring]; norm_num
  have habs25 : |t1 + 90000000 - t1| = (90000000 : ℤ) := by
    rw [show t1 + 90000000 - t1 = (90000000 : ℤ) by ring]; norm_num
  refine ⟨fun hpos => ?_, fun hlo hhi => ?_, fun hout => ?_, ?_, ?_, ?_, ?_⟩
  · have hne : (hours * 3600000 : ℤ) ≠ 0 := by positivity
    have hderive : deriveFundingInterval (some hours) fi ih isec hist
        = some (hours * 3600000) := by
      simp [deriveFundingInterval, intervalTruthy, hpos, hne]
    refine ⟨hderive, ?_⟩
    rw [hderive, scannerFundingFrequency_some]
    have hq : ((hours * 3600000 : ℤ) : ℚ) ≠ 0 := by exact_mod_cast hne
    have hqpos : (0 : ℚ) < ((hours * 3600000 : ℤ) : ℚ) / 3600000 := by
      have h1 : (0 : ℤ) < hours * 3600000 := by positivity
      have h2 : (0 : ℚ) < ((hours * 3600000 : ℤ) : ℚ) := by exact_mod_cast h1
      positivity
    rw [if_pos hq, if_pos hqpos,
      show ((hours * 3600000 : ℤ) : ℚ) / 3600000 = (hours : ℚ) by
        push_cast
        rw [mul_div_assoc]
        norm_num]
    exact Int.floor_intCast hours
  · have hderive : deriveFundingInterval none none none none (t0 :: t1 :: rest)
        = some |t0 - t1| := by
      simp [deriveFundingInterval, intervalTruthy, hlo, hhi]
    have hpos : (0 : ℤ) < |t0 - t1| := by linarith
    refine ⟨hderive, ?_⟩
    rw [hderive, scannerFundingFrequency_some]
    have hq : ((|t0 - t1| : ℤ) : ℚ) ≠ 0 := by
      exact_mod_cast hpos.ne.symm
    have hqpos : (0 : ℚ) < ((|t0 - t1| : ℤ) : ℚ) / 3600000 := by
      have h2 : (0 : ℚ) < ((|t0 - t1| : ℤ) : ℚ) := by exact_mod_cast hpos
      positivity
    rw [if_pos hq, if_pos hqpos]
    push_cast
    rfl
  · have hcond : ¬(3600000 ≤ |t0 - t1| ∧ |t0 - t1| ≤ 86400000) := by
      rcases hout with h | h
      · exact fun hc => absurd hc.1 (by linarith)
      · exact fun hc => absurd hc.2 (by linarith)
    have hderive : deriveFundingInterval none none none none (t0 :: t1 :: rest)
        = none := by
      simp [deriveFundingInterval, intervalTruthy, hcond]
    rw [hderive, scannerFundingFrequency_none]
  · have hderive : deriveFundingInterval none none none none ([] : List ℤ) = none := by
      simp [deriveFundingInterval, intervalTruthy]
    rw [hderive, scannerFundingFrequency_none]
  · have hderive : deriveFundingInterval none none none none [t1 + 14400000, t1]
        = some 14400000 := by
      simp [deriveFundingInterval, intervalTruthy, habs4]
    rw [hderive, scannerFundingFrequency_some]
    norm_num
  · have hderive : deriveFundingInterval none none none none [t1 + 28800000, t1]
        = some 28800000 := by
      simp [deriveFundingInterval, intervalTruthy, habs8]
    rw [hderive, scannerFundingFrequency_some]
    norm_num
  · have hderive : deriveFundingInterval none none none none [t1 + 90000000, t1]
        = none := by
      simp [deriveFundingInterval, intervalTruthy, habs25]
    rw [hderive, scannerFundingFrequency_none]

/-- Witness for C3: a venue-reported 4-hour interval resolves to 4, and
with no venue source a history 4h apart is accepted. -/
theorem c3_witness :
    (0 : ℤ) < 4 ∧
    scannerFundingFrequency (deriveFundingInterval (some 4) none none none [])
      {} "okx" = 4 ∧
    (3600000 : ℤ) ≤ |(14400000 : ℤ) - 0| ∧ |(14400000 : ℤ) - 0| ≤ 86400000 ∧
    deriveFundingInterval none none none none [14400000, 0]
      = some |(14400000 : ℤ) - 0| := by
  have h := c3_funding_frequency_precedence 4 none none none [] 14400000 0 [] {} "okx"
  exact ⟨by decide, (h.1 (by decide)).2, by decide, by decide,
    (h.2.1 (by decide) (by decide)).1⟩

/-- Claim C4 counterexample. The claim states the score is 0 whenever the
net return is negative, even with zero risk and a positive bonus. In the
code only the profit component is zeroed: with net `−0.001`, risk 0 and
bonus 100 the score is `0 + 30 + 10 = 40`, not 0. -/
theorem c4_counterexample :
    calculate_score (-(1/1000)) 0 100 = 40 ∧ (40 : ℝ) ≠ 0 := by
  constructor
  · unfold calculate_score profit_score
    rw [if_neg (by norm_num)]
    norm_num [max_def, min_def]
  · norm_num

/-- Claim C4 (amended). The composite score is the clamped sum of the three
components: when the net return is non-positive the profit component alone
is zeroed and the risk and bonus components still count
(`max 0 (risk + bonus)`); when the net return is positive the log-curve
profit component joins the sum. -/
theorem c4_score_characterisation (net risk bonus : ℝ) :
    (net ≤ 0 → calculate_score net risk bonus
      = max 0 (max 0 (30 - risk * 1000) + min (bonus / 10) 20)) ∧
    (0 < net → calculate_score net risk bonus
      = max 0 (min 50 (10 + 15 * Real.logb 10 (net * 10000))
          + max 0 (30 - risk * 1000) + min (bonus / 10) 20)) := by
  constructor <;> intro h <;> unfold calculate_score profit_score
  · rw [if_neg (not_lt.mpr h), zero_add]
  · rw [if_pos h]

/-- Witness for the amended C4 in both branches: the negative-net example
scores 40, and net 1 with zero risk and bonus scores `50 + 30 + 0 = 80`. -/
theorem c4_witness :
    (-(1/1000) : ℝ) ≤ 0 ∧ (0 : ℝ) < 1 ∧
    calculate_score (-(1/1000)) 0 100 = 40 ∧ calculate_score 1 0 0 = 80 := by
  have hneg := (c4_score_characterisation (-(1/1000)) 0 100).1 (by norm_num)
  have hpos := (c4_score_characterisation 1 0 0).2 (by norm_num)
  have h4 : Real.logb 10 ((1 : ℝ) * 10000) = 4 := by
    rw [show ((1 : ℝ) * 10000) = (10 : ℝ) ^ (4 : ℝ) by
      rw [show (4 : ℝ) = ((4 : ℕ) : ℝ) by norm_num, Real.rpow_natCast]
      norm_num]
    exact Real.logb_rpow (by norm_num) (by norm_num)
  refine ⟨by norm_num, by norm_num, ?_, ?_⟩
  · rw [hneg]; norm_num [max_def, min_def]
  · rw [hpos, h4]; norm_num [max_def, min_def]

/-- Claim C2 counterexample. The claim states that S2A candidates with
zero or negative net profit are absent from the published list. The scan
applies only the funding-rate and basis gates - there is no positivity
filter - so the seed snapshot (`rate=0.0008`, four fee legs of
`1000·0.0004` each) is emitted with per-period net `−0.8` (and percentage
`−0.0008`), which is negative. -/
theorem c2_counterexample :
    (calcSpotFuturesFundingOpportunities cfgC2 "BTC/USDT" [("X", entryC2)]).map
      (fun o => (o.expected_return, o.expected_return_pct)) = [(-(4/5), -(1/1250))] ∧
    (-(4/5) : ℚ) < 0 := by
  constructor
  · norm_num [calcSpotFuturesFundingOpportunities, List.filterMap_cons, List.filterMap_nil,
      s2aOne, entryC2, cfgC2, getFundingFrequencySingle,
      calculate_spot_futures_funding_profit, abs_of_pos]
  · norm_num

/-- Claim C2 (amended). An S2A candidate with complete market data is
emitted exactly when the per-period funding rate reaches
`min_funding_rate` and the basis magnitude stays within
`max_basis_deviation`; the emitted per-period net profit equals
`notional·rate` minus the four fee legs and no positivity filter is
applied, so zero- or negative-net candidates appear whenever those two
gates pass. -/
theorem c2_s2a_emission (cfg : S2AConfig) (symbol exchange : String)
    (data : MarketEntry) (rate sa fb sp fp tf mf : ℚ)
    (hr : data.funding_rate = some rate) (hsa : data.spot_ask = some sa)
    (hfb : data.futures_bid = some fb) (hsp : data.spot_price = some sp)
    (hfp : data.futures_price = some fp) (htf : data.taker_fee = some tf)
    (hmf : data.maker_fee = some mf)
    (hfreq : getFundingFrequencySingle data exchange ≠ 0)
    (hsz : cfg.s2a_position_size ≠ 0) (hsa0 : sa ≠ 0) :
    (cfg.s2a_min_funding_rate ≤ rate →
      |(fb - sa) / sa| ≤ cfg.s2a_max_basis_deviation →
      ∃ o, s2aOne cfg symbol exchange data = some o ∧
        o.expected_return = cfg.s2a_position_size * rate -
          (cfg.s2a_position_size * tf + cfg.s2a_position_size * tf +
            cfg.s2a_position_size * mf + cfg.s2a_position_size * mf) ∧
        o.expected_return_pct = o.expected_return / cfg.s2a_position_size) ∧
    (rate < cfg.s2a_min_funding_rate → s2aOne cfg symbol exchange data = none) ∧
    (cfg.s2a_max_basis_deviation < |(fb - sa) / sa| →
      s2aOne cfg symbol exchange data = none) := by
  refine ⟨fun hmin hbasis => ?_, fun hlow => ?_, fun hhigh => ?_⟩ <;>
    simp only [s2aOne, hr, hsa, hfb, hsp, hfp, htf, hmf,
      calculate_spot_futures_funding_profit, if_neg hfreq, if_neg hsz, if_neg hsa0]
  · rw [if_neg (not_lt.mpr hmin), if_neg (not_lt.mpr hbasis)]
    exact ⟨_, rfl, rfl, rfl⟩
  · rw [if_pos hlow]
  · by_cases hlow : rate < cfg.s2a_min_funding_rate
    · rw [if_pos hlow]
    · rw [if_neg hlow, if_pos hhigh]

/-- Witness for the amended C2: the profitable seed variant
(`taker=0.0002`, `maker=0.0001`) is emitted with per-period net `0.2`. -/
theorem c2_witness :
    entryC2w.funding_rate = some 0.0008 ∧
    ∃ o, s2aOne cfgC2 "BTC/USDT" "X" entryC2w = some o ∧ o.expected_return = 1/5 := by
  have h := (c2_s2a_emission cfgC2 "BTC/USDT" "X" entryC2w 0.0008 100 100.4 100 100.4
    0.0002 0.0001 rfl rfl rfl rfl rfl rfl rfl
    (by norm_num [getFundingFrequencySingle, entryC2w])
    (by norm_num [cfgC2]) (by norm_num)).1
    (by norm_num [cfgC2])
    (by rw [show ((100.4 : ℚ) - 100) / 100 = 1/250 by norm_num,
          abs_of_pos (by norm_num : (0 : ℚ) < 1/250)]
        norm_num [cfgC2])
  obtain ⟨o, ho, he, _⟩ := h
  exact ⟨rfl, o, ho, by rw [he]; norm_num [cfgC2]⟩

/-- Claim C7. When the spot buy (leg A) fills and the futures short
(leg B) fails, the order manager submits a market rollback order reversing
leg A with depth checking disabled and the strategy type `rollback`,
returns `success = false`, and the executor marks the inserted Position
row `failed`. -/
theorem c7_leg_b_failure_rollback (place : OrderRequest → Option OrderData)
    (feeOf : String → String → Option ℚ) (exchange symbol : String) (amount : ℚ)
    (strategy_id : ℕ) (strategy_type : String) (opp : S2AExecOpp)
    (position_id : ℕ) (oA : OrderData)
    (hA : place (spotLegRequest exchange symbol amount strategy_id strategy_type)
      = some oA)
    (hB : place (futuresLegRequest exchange symbol amount strategy_id strategy_type)
      = none) :
    (create_spot_futures_pair place feeOf exchange symbol amount strategy_id
      strategy_type).2.success = false ∧
    rollbackOrderRequest exchange symbol "buy" amount false ∈
      (create_spot_futures_pair place feeOf exchange symbol amount strategy_id
        strategy_type).1 ∧
    (rollbackOrderRequest exchange symbol "buy" amount false).side = "sell" ∧
    (rollbackOrderRequest exchange symbol "buy" amount false).order_type = "market" ∧
    (rollbackOrderRequest exchange symbol "buy" amount false).check_depth = false ∧
    (execSpotFuturesFunding opp
      (create_spot_futures_pair place feeOf exchange symbol amount strategy_id
        strategy_type).2 position_id).2.success = false ∧
    ExecEvent.setStatus position_id "failed" ∈
      (execSpotFuturesFunding opp
        (create_spot_futures_pair place feeOf exchange symbol amount strategy_id
          strategy_type).2 position_id).1 := by
  have hpair : create_spot_futures_pair place feeOf exchange symbol amount strategy_id
      strategy_type
      = ([spotLegRequest exchange symbol amount strategy_id strategy_type,
          futuresLegRequest exchange symbol amount strategy_id strategy_type,
          rollbackOrderRequest exchange symbol "buy" amount false],
          ⟨some oA, none, false, 0⟩) := by
    simp only [create_spot_futures_pair, hA, hB]
  rw [hpair]
  refine ⟨rfl, by simp, rfl, rfl, rfl, rfl, by simp [execSpotFuturesFunding]⟩

/-- Witness for C7 with a venue that rejects futures legs. -/
theorem c7_witness :
    placeC7 (spotLegRequest "gate" "BTC/USDT" 1 7 "funding_rate_spot_futures")
      = some ⟨"SIM_1"⟩ ∧
    placeC7 (futuresLegRequest "gate" "BTC/USDT" 1 7 "funding_rate_spot_futures")
      = none ∧
    (create_spot_futures_pair placeC7 feeC7 "gate" "BTC/USDT" 1 7
      "funding_rate_spot_futures").2.success = false ∧
    rollbackOrderRequest "gate" "BTC/USDT" "buy" 1 false ∈
      (create_spot_futures_pair placeC7 feeC7 "gate" "BTC/USDT" 1 7
        "funding_rate_spot_futures").1 ∧
    ExecEvent.setStatus 7 "failed" ∈
      (execSpotFuturesFunding oppC7
        (create_spot_futures_pair placeC7 feeC7 "gate" "BTC/USDT" 1 7
          "funding_rate_spot_futures").2 7).1 := by
  have h := c7_leg_b_failure_rollback placeC7 feeC7 "gate" "BTC/USDT" 1 7
    "funding_rate_spot_futures" oppC7 7 ⟨"SIM_1"⟩ rfl rfl
  exact ⟨rfl, rfl, h.1, h.2.1, h.2.2.2.2.2.2⟩

/-- Claim C5 counterexample. The claim states a venue position with no
matching open DB row causes a new `directional_funding` Position row
tagged `synced_from_exchange=true`; the code never inserts. Both
reconciler UPDATEs assign columns missing from the `positions` schema
(`exit_details`/`updated_at`, `entry_price`), so with a venue entry
price away from the schema-default 0 the DB-side step raises and the
whole exchange aborts before the mismatch loop (empty trace); with the
venue entry price within tolerance of 0 the unmatched ETH short only
raises a `position_mismatch` callback ("not auto-added to the database"
per the source log). In either run no insert event occurs. -/
theorem c5_counterexample :
    updateFails syncCloseColumns = true ∧
    updateFails syncUpdateColumns = true ∧
    syncPositionsWithExchange dbC5 adaptersC5a = [] ∧
    syncPositionsWithExchange dbC5 adaptersC5b =
      [.callbackPositionMismatch "binance" "ETH/USDT" "short" 2 2000] ∧
    ((syncPositionsWithExchange dbC5 adaptersC5a).filter isInsertPosition) = [] ∧
    ((syncPositionsWithExchange dbC5 adaptersC5b).filter isInsertPosition) = [] := by
  have hu : updateFails syncUpdateColumns = true := by decide
  have hc : updateFails syncCloseColumns = true := by decide
  refine ⟨hc, hu, ?_, ?_, ?_, ?_⟩
  · simp [syncPositionsWithExchange, openDbPositions, dbC5, adaptersC5a, realC5a,
      groupByExchange, groupInsert2, groupInsert, buildRealDict, upsertKey,
      syncExchangeRun, flattenSymbols, syncDbSideRun, syncDbStep, dbEntryPrice,
      syncVenueSide, lookupKey, lookupGroup, List.filter, hu, hc]
    norm_num
  · simp [syncPositionsWithExchange, openDbPositions, dbC5, adaptersC5b, realC5b,
      groupByExchange, groupInsert2, groupInsert, buildRealDict, upsertKey,
      syncExchangeRun, flattenSymbols, syncDbSideRun, syncDbStep, dbEntryPrice,
      syncVenueSide, lookupKey, lookupGroup, List.filter, hu, hc]
    norm_num
  · simp [syncPositionsWithExchange, openDbPositions, dbC5, adaptersC5a, realC5a,
      groupByExchange, groupInsert2, groupInsert, buildRealDict, upsertKey,
      syncExchangeRun, flattenSymbols, syncDbSideRun, syncDbStep, dbEntryPrice,
      syncVenueSide, lookupKey, lookupGroup, List.filter, isInsertPosition, hu, hc]
    norm_num
  · simp [syncPositionsWithExchange, openDbPositions, dbC5, adaptersC5b, realC5b,
      groupByExchange, groupInsert2, groupInsert, buildRealDict, upsertKey,
      syncExchangeRun, flattenSymbols, syncDbSideRun, syncDbStep, dbEntryPrice,
      syncVenueSide, lookupKey, lookupGroup, List.filter, isInsertPosition, hu, hc]
    norm_num

/-- Helper for C5: a successful DB-side step only closes or updates rows. -/
theorem syncDbStep_no_insert (rd : List ((String × String) × RealPos))
    (sym : String) (dp : DbPos) (evs : List ExecEvent)
    (h : syncDbStep rd sym dp = some evs) :
    ∀ e ∈ evs, isInsertPosition e = false := by
  intro e he
  unfold syncDbStep at h
  split at h
  · split at h
    · cases h
    · cases h; rcases he with _ | ⟨_, (_ | ⟨_, he⟩)⟩ <;> first | rfl | cases he
  · split at h
    · split at h
      · cases h
      · cases h; rcases he with _ | ⟨_, (_ | ⟨_, he⟩)⟩ <;> first | rfl | cases he
    · cases h; cases he

/-- Helper for C5: the DB-side loop, aborted or complete, only closes or
updates rows. -/
theorem syncDbSideRun_no_insert (rd : List ((String × String) × RealPos))
    (pairs : List (String × DbPos)) :
    ∀ e ∈ (syncDbSideRun rd pairs).1, isInsertPosition e = false := by
  induction pairs with
  | nil => intro e he; cases he
  | cons hd tl ih =>
    intro e he
    obtain ⟨sym, dp⟩ := hd
    rw [syncDbSideRun] at he
    split at he
    · cases he
    · rename_i evs hevs
      rcases List.mem_append.mp he with h1 | h2
      · exact syncDbStep_no_insert rd sym dp evs hevs e h1
      · exact ih e h2

/-- Helper for C5: the venue-side half of the reconciliation only emits
mismatch callbacks. -/
theorem syncVenueSide_no_insert (symbols : List (String × List DbPos))
    (rd : List ((String × String) × RealPos)) (exchange_name : String) :
    ∀ e ∈ syncVenueSide symbols rd exchange_name, isInsertPosition e = false := by
  intro e he
  unfold syncVenueSide at he
  obtain ⟨kv, _, he⟩ := List.mem_flatMap.mp he
  split at he
  · cases he
  · split at he
    · split at he
      · cases he
      · rcases he with _ | ⟨_, he⟩ <;> first | rfl | cases he
    · rcases he with _ | ⟨_, he⟩ <;> first | rfl | cases he

/-- Claim C5 (amended). Exchange reconciliation never creates database
Position rows - whether an exchange pass aborts on a raising UPDATE or
completes: venue-reported positions with no matching open DB row are
only surfaced through a `position_mismatch` operator callback, for the
operator to resolve. -/
theorem c5_sync_never_inserts (db : List DbPos)
    (adapters : String → Option (List RealPos)) :
    ((syncPositionsWithExchange db adapters).all fun e => !isInsertPosition e)
      = true := by
  rw [List.all_eq_true]
  intro e he
  unfold syncPositionsWithExchange at he
  split at he
  · cases he
  · obtain ⟨eg, _, he⟩ := List.mem_flatMap.mp he
    split at he
    · cases he
    · rename_i real hreal
      unfold syncExchangeRun at he
      split at he
      · rename_i evs hrun
        rcases List.mem_append.mp he with h1 | h2
        · have h3 : e ∈ (syncDbSideRun (buildRealDict real)
              (flattenSymbols eg.2)).1 := by rw [hrun]; exact h1
          simp [syncDbSideRun_no_insert _ _ e h3]
        · simp [syncVenueSide_no_insert _ _ _ e h2]
      · rename_i evs hrun
        have h3 : e ∈ (syncDbSideRun (buildRealDict real)
            (flattenSymbols eg.2)).1 := by rw [hrun]; exact he
        simp [syncDbSideRun_no_insert _ _ e h3]

/-- Claim C8 counterexample. Two divergences from the claimed
per-instant sum over `[open_time, now]`: the SQL window is
`next_funding_time > open_time`, so a settlement exactly on `open_time`
(1000 ms, table `tblC8`) contributes nothing in the code; and when the
newest probed row's `funding_interval` is NULL (table `tblC8n`, instant
2000 ms inside the window) the interval division raises and the code
accrues nothing - while the claimed sum collects `100·0.001` in both
cases. -/
theorem c8_counterexample :
    calcSingleExchangeFunding tblC8 "funding_rate_spot_futures" "short" "okx"
      "BTC/USDT" 100 1000 30000 = 0 ∧
    claimWindowFunding tblC8 "okx" "BTC/USDT" 100 1000 30000 = 1/10 ∧
    calcSingleExchangeFunding tblC8n "funding_rate_spot_futures" "short" "okx"
      "BTC/USDT" 100 1000 30000 = 0 ∧
    claimWindowFunding tblC8n "okx" "BTC/USDT" 100 1000 30000 = 1/10 ∧
    (0 : ℚ) ≠ 1/10 := by
  refine ⟨?_, ?_, ?_, ?_, by norm_num⟩
  · norm_num [calcSingleExchangeFunding, newestRow, newerRow, venueSymbolRows,
      fundingHistoryQuery, fundingRowMatches, tblC8, List.filter]
  · norm_num [claimWindowFunding, buildSettlements, stepSettlement, setSettlement,
      lookupSettlement, tblC8, List.filter]
  · norm_num [calcSingleExchangeFunding, newestRow, newerRow, venueSymbolRows,
      fundingHistoryQuery, fundingRowMatches, tblC8n, List.filter]
  · norm_num [claimWindowFunding, buildSettlements, stepSettlement, setSettlement,
      lookupSettlement, tblC8n, List.filter]

/-- Helper for C8: lookup after an in-place overwrite at the same key. -/
theorem lookupSettlement_set_self (m : List (ℤ × ℚ × ℤ)) (k : ℤ) (v : ℚ × ℤ) :
    lookupSettlement (setSettlement m k v) k = some v := by
  induction m with
  | nil => simp [setSettlement, lookupSettlement]
  | cons e rest ih =>
    by_cases h : e.1 = k
    · simp [setSettlement, h, lookupSettlement]
    · simp [setSettlement, h, lookupSettlement, ih]

/-- Helper for C8: lookup at a different key is unaffected by an
overwrite. -/
theorem lookupSettlement_set_ne (m : List (ℤ × ℚ × ℤ)) (k q : ℤ) (v : ℚ × ℤ)
    (hkq : k ≠ q) :
    lookupSettlement (setSettlement m k v) q = lookupSettlement m q := by
  induction m with
  | nil => simp [setSettlement, lookupSettlement, hkq]
  | cons e rest ih =>
    by_cases h : e.1 = k
    · simp [setSettlement, h, lookupSettlement, hkq, h ▸ hkq]
    · simp [setSettlement, h, lookupSettlement, ih]

/-- Helper for C8: `stepSettlement` on a row without a settlement
instant. -/
theorem stepSettlement_none (m : List (ℤ × ℚ × ℤ)) (row : FundingRow)
    (h : row.next_funding_time = none) : stepSettlement m row = m := by
  unfold stepSettlement; rw [h]

/-- Helper for C8: `stepSettlement` on a row with settlement instant
`s`. -/
theorem stepSettlement_some (m : List (ℤ × ℚ × ℤ)) (row : FundingRow) (s : ℤ)
    (h : row.next_funding_time = some s) :
    stepSettlement m row =
      (if s = 0 then m
       else match lookupSettlement m s with
         | none => setSettlement m s (row.funding_rate, row.timestamp)
         | some e =>
           if e.2 < row.timestamp then
             setSettlement m s (row.funding_rate, row.timestamp)
           else m) := by
  unfold stepSettlement; rw [h]

/-- Helper for C8: one deduplication step never lowers the stored sample
timestamp of any instant. -/
theorem stepSettlement_mono (m : List (ℤ × ℚ × ℤ)) (row : FundingRow) (q : ℤ)
    (p : ℚ × ℤ) (h : lookupSettlement m q = some p) :
    ∃ w, lookupSettlement (stepSettlement m row) q = some w ∧ p.2 ≤ w.2 := by
  rcases hnft : row.next_funding_time with _ | s
  · rw [stepSettlement_none m row hnft]; exact ⟨p, h, le_rfl⟩
  · rw [stepSettlement_some m row s hnft]
    by_cases hs0 : s = 0
    · rw [if_pos hs0]; exact ⟨p, h, le_rfl⟩
    · rw [if_neg hs0]
      rcases hl : lookupSettlement m s with _ | e
      · have hsq : s ≠ q := fun hh => by rw [hh, h] at hl; cases hl
        refine ⟨p, ?_, le_rfl⟩
        show lookupSettlement (setSettlement m s (row.funding_rate, row.timestamp)) q
          = some p
        rw [lookupSettlement_set_ne m s q _ hsq]
        exact h
      · show ∃ w, lookupSettlement
            (if e.2 < row.timestamp then
              setSettlement m s (row.funding_rate, row.timestamp) else m) q
            = some w ∧ p.2 ≤ w.2
        by_cases hlt : e.2 < row.timestamp
        · rw [if_pos hlt]
          by_cases hsq : s = q
          · subst hsq
            rw [hl] at h
            injection h with h
            subst h
            exact ⟨(row.funding_rate, row.timestamp),
              lookupSettlement_set_self m s _, hlt.le⟩
          · rw [lookupSettlement_set_ne m s q _ hsq]
            exact ⟨p, h, le_rfl⟩
        · rw [if_neg hlt]; exact ⟨p, h, le_rfl⟩

/-- Helper for C8: after processing a row, its instant holds a sample at
least as new as the row. -/
theorem stepSettlement_self (m : List (ℤ × ℚ × ℤ)) (row : FundingRow) (s : ℤ)
    (hnft : row.next_funding_time = some s) (hs0 : s ≠ 0) :
    ∃ w, lookupSettlement (stepSettlement m row) s = some w ∧
      row.timestamp ≤ w.2 := by
  rw [stepSettlement_some m row s hnft, if_neg hs0]
  rcases hl : lookupSettlement m s with _ | e
  · exact ⟨(row.funding_rate, row.timestamp), lookupSettlement_set_self m s _, le_rfl⟩
  · show ∃ w, lookupSettlement
        (if e.2 < row.timestamp then
          setSettlement m s (row.funding_rate, row.timestamp) else m) s
        = some w ∧ row.timestamp ≤ w.2
    by_cases hlt : e.2 < row.timestamp
    · rw [if_pos hlt]
      exact ⟨(row.funding_rate, row.timestamp), lookupSettlement_set_self m s _, le_rfl⟩
    · rw [if_neg hlt]
      exact ⟨e, hl, not_lt.mp hlt⟩

/-- Helper for C8: folding more rows never lowers a stored timestamp. -/
theorem foldl_step_mono (rows : List FundingRow) (m : List (ℤ × ℚ × ℤ)) (q : ℤ)
    (p : ℚ × ℤ) (h : lookupSettlement m q = some p) :
    ∃ w, lookupSettlement (rows.foldl stepSettlement m) q = some w ∧ p.2 ≤ w.2 := by
  induction rows generalizing m p with
  | nil => exact ⟨p, h, le_rfl⟩
  | cons a rest ih =>
    obtain ⟨w1, hw1, hle1⟩ := stepSettlement_mono m a q p h
    obtain ⟨w2, hw2, hle2⟩ := ih (stepSettlement m a) w1 hw1
    exact ⟨w2, hw2, le_trans hle1 hle2⟩

/-- Helper for C8: every processed row is dominated by the final map. -/
theorem foldl_step_mem_bound (rows : List FundingRow) (m : List (ℤ × ℚ × ℤ))
    (row : FundingRow) (hmem : row ∈ rows) (s : ℤ)
    (hnft : row.next_funding_time = some s) (hs0 : s ≠ 0) :
    ∃ w, lookupSettlement (rows.foldl stepSettlement m) s = some w ∧
      row.timestamp ≤ w.2 := by
  induction rows generalizing m with
  | nil => cases hmem
  | cons a rest ih =>
    rcases List.mem_cons.mp hmem with rfl | hmem2
    · obtain ⟨w1, hw1, hle1⟩ := stepSettlement_self m row s hnft hs0
      obtain ⟨w2, hw2, hle2⟩ := foldl_step_mono rest (stepSettlement m row) s w1 hw1
      exact ⟨w2, hw2, le_trans hle1 hle2⟩
    · exact ih (stepSettlement m a) hmem2

/-- Helper for C8: a dominated row is a no-op for the deduplication. -/
theorem stepSettlement_noop (m : List (ℤ × ℚ × ℤ)) (row : FundingRow)
    (h : ∀ s, row.next_funding_time = some s → s ≠ 0 →
      ∃ w, lookupSettlement m s = some w ∧ row.timestamp ≤ w.2) :
    stepSettlement m row = m := by
  rcases hnft : row.next_funding_time with _ | s
  · exact stepSettlement_none m row hnft
  · rw [stepSettlement_some m row s hnft]
    by_cases hs0 : s = 0
    · rw [if_pos hs0]
    · rw [if_neg hs0]
      obtain ⟨w, hw, hle⟩ := h s hnft hs0
      rw [hw]
      show (if w.2 < row.timestamp then
        setSettlement m s (row.funding_rate, row.timestamp) else m) = m
      rw [if_neg (not_lt.mpr hle)]

/-- Helper for C8: appending a duplicate of a row already in the history
leaves the settlement map unchanged. -/
theorem buildSettlements_append_dup (rows : List FundingRow) (row : FundingRow)
    (hmem : row ∈ rows) :
    buildSettlements (rows ++ [row]) = buildSettlements rows := by
  unfold buildSettlements
  rw [List.foldl_append]
  simp only [List.foldl_cons, List.foldl_nil]
  exact stepSettlement_noop _ _ fun s hnft hs0 =>
    foldl_step_mem_bound rows [] row hmem s hnft hs0

/-- Helper for C8: the windowed query and its settlement map are unchanged
by appending a duplicate table row. -/
theorem query_append_dup (tbl : List FundingRow) (r : FundingRow) (hr : r ∈ tbl)
    (ex sym : String) (o n : ℤ) :
    (fundingHistoryQuery (tbl ++ [r]) ex sym o n).isEmpty
      = (fundingHistoryQuery tbl ex sym o n).isEmpty ∧
    buildSettlements (fundingHistoryQuery (tbl ++ [r]) ex sym o n)
      = buildSettlements (fundingHistoryQuery tbl ex sym o n) := by
  unfold fundingHistoryQuery
  rw [List.filter_append]
  cases hp : fundingRowMatches ex sym o n r
  · simp [List.filter_cons, hp]
  · have hmem : r ∈ tbl.filter (fundingRowMatches ex sym o n) :=
      List.mem_filter.mpr ⟨hr, hp⟩
    have hfil : List.filter (fundingRowMatches ex sym o n) [r] = [r] := by
      simp [List.filter_cons, hp]
    rw [hfil]
    constructor
    · rw [List.isEmpty_eq_false_iff_exists_mem.mpr ⟨r, List.mem_append_left _ hmem⟩,
        List.isEmpty_eq_false_iff_exists_mem.mpr ⟨r, hmem⟩]
    · exact buildSettlements_append_dup _ _ hmem

/-- Helper for C8: reduction of a `newerRow` step on a present
accumulator. -/
theorem newerRow_some (b x : FundingRow) :
    newerRow (some b) x = if b.timestamp < x.timestamp then some x else some b := rfl

/-- Helper for C8: reduction of a `newerRow` step on an empty
accumulator. -/
theorem newerRow_none (x : FundingRow) : newerRow none x = some x := rfl

/-- Helper for C8: folding more rows never lowers the newest-row
timestamp. -/
theorem foldl_newerRow_mono : ∀ (l : List FundingRow) (b : FundingRow),
    ∃ cc, l.foldl newerRow (some b) = some cc ∧ b.timestamp ≤ cc.timestamp
  | [], b => ⟨b, rfl, le_rfl⟩
  | a :: rest, b => by
    rw [List.foldl_cons, newerRow_some]
    by_cases hlt : b.timestamp < a.timestamp
    · rw [if_pos hlt]
      obtain ⟨cc, hcc, hle⟩ := foldl_newerRow_mono rest a
      exact ⟨cc, hcc, le_trans hlt.le hle⟩
    · rw [if_neg hlt]
      exact foldl_newerRow_mono rest b

/-- Helper for C8: the newest row is at least as new as every member. -/
theorem newestRow_mem_bound : ∀ (l : List FundingRow) (acc : Option FundingRow)
    (x : FundingRow), x ∈ l →
    ∃ cc, l.foldl newerRow acc = some cc ∧ x.timestamp ≤ cc.timestamp
  | [], _, x, hx => absurd hx (List.not_mem_nil x)
  | a :: rest, acc, x, hx => by
    rw [List.foldl_cons]
    rcases List.mem_cons.mp hx with rfl | hx2
    · rcases acc with _ | b
      · rw [newerRow_none]
        exact foldl_newerRow_mono rest x
      · rw [newerRow_some]
        by_cases hlt : b.timestamp < x.timestamp
        · rw [if_pos hlt]
          exact foldl_newerRow_mono rest x
        · rw [if_neg hlt]
          obtain ⟨cc, hcc, hle⟩ := foldl_newerRow_mono rest b
          exact ⟨cc, hcc, le_trans (not_lt.mp hlt) hle⟩
    · exact newestRow_mem_bound rest (newerRow acc a) x hx2

/-- Helper for C8: appending a duplicate of a present row does not change
the newest row. -/
theorem newestRow_append_dup (l : List FundingRow) (r : FundingRow) (hr : r ∈ l) :
    newestRow (l ++ [r]) = newestRow l := by
  unfold newestRow
  rw [List.foldl_append]
  simp only [List.foldl_cons, List.foldl_nil]
  obtain ⟨cc, hcc, hle⟩ := newestRow_mem_bound l none r hr
  rw [hcc, newerRow_some, if_neg (not_lt.mpr hle)]

/-- Helper for C8: the interval probe is unaffected by appending a
duplicate table row. -/
theorem probe_newest_append_dup (tbl : List FundingRow) (r : FundingRow)
    (hr : r ∈ tbl) (ex sym : String) :
    newestRow (venueSymbolRows (tbl ++ [r]) ex sym)
      = newestRow (venueSymbolRows tbl ex sym) := by
  unfold venueSymbolRows
  rw [List.filter_append]
  cases hp : (r.exchange == ex && r.symbol == sym)
  · simp [List.filter_cons, hp]
  · have hmem : r ∈ tbl.filter (fun x => x.exchange == ex && x.symbol == sym) :=
      List.mem_filter.mpr ⟨hr, hp⟩
    have hfil : List.filter (fun x : FundingRow => x.exchange == ex && x.symbol == sym)
        [r] = [r] := by
      simp [List.filter_cons, hp]
    rw [hfil]
    exact newestRow_append_dup _ _ hmem

/-- Claim C8 (amended). Funding accrual is recomputed from the persisted
history over the half-open window `(open_time, now]` - provided the
newest probed sample carries a non-NULL `funding_interval`, a NULL one
aborting the single-venue computation to 0 - with per-instant
deduplication keeping the newest sample, so it never double-counts:
appending to the table a duplicate of any sample already present leaves
both the single-venue and the cross-venue computation unchanged, and in
particular recomputing over the same history yields the same value. -/
theorem c8_recompute_idempotent (tbl : List FundingRow) (r : FundingRow)
    (hr : r ∈ tbl)
    (strategy_type direction exchange symbol long_exchange short_exchange : String)
    (position_size : ℚ) (open_ms now_ms : ℤ) :
    calcSingleExchangeFunding (tbl ++ [r]) strategy_type direction exchange symbol
        position_size open_ms now_ms
      = calcSingleExchangeFunding tbl strategy_type direction exchange symbol
        position_size open_ms now_ms ∧
    calcCrossExchangeFunding (tbl ++ [r]) symbol long_exchange short_exchange
        position_size open_ms now_ms
      = calcCrossExchangeFunding tbl symbol long_exchange short_exchange
        position_size open_ms now_ms := by
  obtain ⟨hqe, hqb⟩ := query_append_dup tbl r hr exchange symbol open_ms now_ms
  obtain ⟨hle, hlb⟩ := query_append_dup tbl r hr long_exchange symbol open_ms now_ms
  obtain ⟨hse, hsb⟩ := query_append_dup tbl r hr short_exchange symbol open_ms now_ms
  constructor
  · unfold calcSingleExchangeFunding
    rw [probe_newest_append_dup tbl r hr exchange symbol, hqe, hqb]
  · unfold calcCrossExchangeFunding
    rw [hle, hlb, hse, hsb]

/-- Witness for the amended C8 on a one-sample table. -/
theorem c8_witness :
    rowC8 ∈ tblC8w ∧
    calcSingleExchangeFunding (tblC8w ++ [rowC8]) "funding_rate_spot_futures" "short"
        "okx" "BTC/USDT" 100 1000 30000
      = calcSingleExchangeFunding tblC8w "funding_rate_spot_futures" "short"
        "okx" "BTC/USDT" 100 1000 30000 ∧
    calcCrossExchangeFunding (tblC8w ++ [rowC8]) "BTC/USDT" "okx" "gate" 100 1000 30000
      = calcCrossExchangeFunding tblC8w "BTC/USDT" "okx" "gate" 100 1000 30000 := by
  have h := c8_recompute_idempotent tblC8w rowC8 (by simp [tblC8w])
    "funding_rate_spot_futures" "short" "okx" "BTC/USDT" "okx" "gate" 100 1000 30000
  exact ⟨by simp [tblC8w], h.1, h.2⟩

end FundingRate
